import Mathlib

/-!
Verification of the change-observation core of domx.js (DOM State Observer).

Shallow embedding of src/domx.js: the accessor resolver (`parseRead`), the
snapshot reader (`collect`), the trigger derivation (`getWatchEvent`), the
per-session mutation handler and scheduler of `observe`, and the shared
MutationObserver singleton (`ensureObserver`).

The DOM is modelled as a list of elements; CSS matching is abstracted by
giving each element (and each mutation-target node) the list of selectors
it matches, and, for nodes, the list of selectors matched by some proper
ancestor (`parentElement?.closest?.(sel)` being non-null).
-/

namespace Domx

/-- Values a read accessor can produce: JS strings, booleans, null,
undefined (absent dataset key), and arrays (multi-element selectors). -/
inductive Value where
  | vNull
  | vUndef
  | vStr (s : String)
  | vBool (b : Bool)
  | vArr (l : List Value)

/-- An element of the document, as seen by the read accessors: its
`value`, `checked`, `textContent` properties, its attribute map, its
dataset map, and the abstracted set of selectors it matches. -/
structure Element where
  value : String := ""
  checked : Bool := false
  textContent : String := ""
  attrs : List (String × String) := []
  dataset : List (String × String) := []
  matchedBy : List String := []
deriving DecidableEq

/-- A read directive: a shortcut string or a custom extractor function
(`typeof read === 'function'`). -/
inductive ReadSpec where
  | str (s : String)
  | custom (f : Element → Value)

/-- Result of `el.getAttribute(attr)`: the value, or null when absent. -/
def Element.getAttr (el : Element) (attr : String) : Value :=
  match el.attrs.lookup attr with
  | some v => Value.vStr v
  | none => Value.vNull

/-- Result of `el.dataset[key]`: the value, or undefined when absent. -/
def Element.dataGet (el : Element) (key : String) : Value :=
  match el.dataset.lookup key with
  | some v => Value.vStr v
  | none => Value.vUndef

/-- Embedding of `parseRead` (src/domx.js lines 22-41): a custom function
is returned as-is; the shortcut strings value / checked / text and the
attr: / data: families yield the corresponding extractor; any other
string throws `Unknown read shortcut`. -/
def parseRead : ReadSpec → Except String (Element → Value)
  | ReadSpec.custom f => Except.ok f
  | ReadSpec.str s =>
    if s = "value" then Except.ok fun el => Value.vStr el.value
    else if s = "checked" then Except.ok fun el => Value.vBool el.checked
    else if s = "text" then Except.ok fun el => Value.vStr el.textContent
    else if s.startsWith "attr:" then
      Except.ok fun el => el.getAttr (s.drop 5)
    else if s.startsWith "data:" then
      Except.ok fun el => el.dataGet (s.drop 5)
    else Except.error ("Unknown read shortcut: " ++ s)

/-- A manifest entry `{selector, read, watch?}`. An absent selector is
modelled by `""` (both `undefined` and `""` are falsy in the guard
`!selector`); an absent read by `none`. The `write` field is ignored
here: the observation core never consults it. -/
structure Entry where
  selector : String := ""
  read : Option ReadSpec := none
  watch : Option String := none

/-- A manifest: label-to-entry mapping, in object-key order. -/
abbrev Manifest := List (String × Entry)

/-- The document: elements in document order. -/
abbrev Document := List Element

/-- Snapshot state object produced by `collect`, in insertion order. -/
abbrev StateObj := List (String × Value)

/-- Embedding of `document.querySelectorAll(sel)`: elements matching the
selector, in document order. -/
def querySelectorAll (doc : Document) (sel : String) : List Element :=
  doc.filter fun el => el.matchedBy.contains sel

/-- Truthiness of a read directive in the guard `if (!selector || !read)
continue;`: absent and empty-string reads are falsy, custom functions and
nonempty strings are truthy. -/
def readTruthy : ReadSpec → Bool
  | ReadSpec.str s => !(s = "")
  | ReadSpec.custom _ => true

/-- Value recorded for one entry given its matched elements (src/domx.js
lines 90-101): null for zero matches, the extracted value for exactly
one, the ordered array of per-element values otherwise. -/
def entryValue (extractor : Element → Value) : List Element → Value
  | [] => Value.vNull
  | [el] => extractor el
  | els => Value.vArr (els.map extractor)

/-- Embedding of `collect` (src/domx.js lines 80-105): for each entry with
truthy selector and read, resolve the extractor (a throw aborts the whole
call), query the selector, and record the entry value under the label. -/
def collect (doc : Document) : Manifest → Except String StateObj
  | [] => Except.ok []
  | (label, config) :: rest =>
    match config.read with
    | none => collect doc rest
    | some r =>
      if config.selector = "" then collect doc rest
      else if readTruthy r = false then collect doc rest
      else
        match parseRead r with
        | Except.error e => Except.error e
        | Except.ok extractor =>
          match collect doc rest with
          | Except.error e => Except.error e
          | Except.ok st =>
            Except.ok ((label, entryValue extractor (querySelectorAll doc config.selector)) :: st)

/-- Truthiness of the optional `watch` override (`if (watchOverride)`). -/
def truthyOpt : Option String → Bool
  | none => false
  | some s => !(s = "")

/-- Embedding of `getWatchEvent` (src/domx.js lines 168-174): a truthy
watch override wins; a custom read function yields null (comment in the
source: requires explicit watch); value maps to input, checked to change;
everything else yields null, meaning the MutationObserver path. -/
def getWatchEvent (read : Option ReadSpec) (watch : Option String) : Option String :=
  if truthyOpt watch then watch
  else match read with
    | some (ReadSpec.custom _) => none
    | some (ReadSpec.str s) =>
      if s = "value" then some "input"
      else if s = "checked" then some "change"
      else none
    | none => none

/-- A DOM node as seen by the mutation handler and the delegated
listeners: its nodeType (1 = element, 3 = text), the selectors it matches
itself, and the selectors for which `parentElement?.closest?.(sel)` is
non-null (some proper ancestor matches). -/
structure Node where
  nodeType : Nat := 1
  selfMatches : List String := []
  ancestorMatches : List String := []
deriving DecidableEq

/-- Mutation record types delivered by a MutationObserver. -/
inductive MutationType where
  | childList
  | attributes
  | characterData
deriving DecidableEq

/-- A raw mutation record, reduced to the fields the core consults. -/
structure Mutation where
  mtype : MutationType := MutationType.attributes
  target : Node := {}
deriving DecidableEq

/-- Embedding of the watched-selector list rebuilt by the session's
mutation handler (src/domx.js lines 215-221): the selectors of every
entry whose `getWatchEvent` is null. -/
def watchedSelectors (m : Manifest) : List String :=
  m.filterMap fun lc =>
    match getWatchEvent lc.2.read lc.2.watch with
    | some _ => none
    | none => some lc.2.selector

/-- Whether one node is relevant to the watched selectors: it matches one
directly or has a proper ancestor matching one (src/domx.js line 229). -/
def nodeTriggers (ws : List String) (n : Node) : Bool :=
  ws.any fun sel => n.selfMatches.contains sel || n.ancestorMatches.contains sel

/-- Embedding of the session's mutation handler decision (src/domx.js
lines 224-234): scan the batch; skip any target whose nodeType is not 1;
schedule a flush on the first relevant node. The result is whether
`scheduleCallback` gets called for the batch. -/
def mutationHandlerSchedules (m : Manifest) (ms : List Mutation) : Bool :=
  ms.any fun mu =>
    mu.target.nodeType == 1 && nodeTriggers (watchedSelectors m) mu.target

/-!
Operational model of one observation session (`observe`, src/domx.js
lines 182-251). A session owns: a pending-flush flag (the rAF handle),
the delegated listeners installed on document.body, its membership in
the shared `observerCallbacks` set, and the record of callback
invocations made so far. The host event loop is modelled as a trace of
events: DOM replacement (activity with no notification), a bubbled UI
event reaching the body listeners, a raw mutation batch delivered by the
shared observer, an animation-frame boundary, and a call to the cancel
function returned by `observe`.
-/

/-- Per-session state captured by the closures inside `observe`. -/
structure Session where
  pending : Bool
  listeners : List (String × String)
  subscribed : Bool
  calls : List (Except String StateObj)

/-- Embedding of `scheduleCallback` (src/domx.js lines 185-191): request
an animation frame unless one is already pending. -/
def scheduleCallback (s : Session) : Session :=
  if s.pending then s else { s with pending := true }

/-- The delegated listeners installed at session start (src/domx.js lines
196-210): one (eventType, selector) pair per entry whose
`getWatchEvent` is non-null. -/
def initListeners (m : Manifest) : List (String × String) :=
  m.filterMap fun lc =>
    (getWatchEvent lc.2.read lc.2.watch).map fun ev => (ev, lc.2.selector)

/-- Session state right after `observe(manifest, callback)` returns: no
pending flush, listeners installed, mutation handler subscribed, no
calls yet. -/
def initSession (m : Manifest) : Session :=
  { pending := false, listeners := initListeners m, subscribed := true, calls := [] }

/-- Events of the host loop, from the session's point of view. -/
inductive Event where
  | setDom (d : Document)
  | domEvent (eventType : String) (target : Node)
  | mutationBatch (ms : List Mutation)
  | frame
  | cancel

/-- Whether an event is a potential trigger inside one coalescing window:
anything except the frame boundary that ends the window and the cancel
call that ends the session. -/
def isWindowEvent : Event → Bool
  | Event.frame => false
  | Event.cancel => false
  | _ => true

/-- Document state after an event: only `setDom` changes the document. -/
def domAfter (dom : Document) : Event → Document
  | Event.setDom d => d
  | _ => dom

/-- One step of a session. A `domEvent` runs every delegated listener of
that event type and schedules when the target matches the listener's
selector (src/domx.js lines 202-206). A `mutationBatch` runs the
session's mutation handler while it is in `observerCallbacks`. A `frame`
fires the pending rAF callback: clear pending, then invoke the callback
with `collect(manifest)` on the current document (lines 187-190). A
`cancel` cancels the pending frame and runs every cleanup: listeners
removed, handler deleted from `observerCallbacks` (lines 242-250). -/
def stepSession (m : Manifest) (dom : Document) (s : Session) : Event → Session
  | Event.setDom _ => s
  | Event.domEvent ty tgt =>
    if s.listeners.any fun p => p.1 == ty && tgt.selfMatches.contains p.2
    then scheduleCallback s else s
  | Event.mutationBatch ms =>
    if s.subscribed && mutationHandlerSchedules m ms
    then scheduleCallback s else s
  | Event.frame =>
    if s.pending
    then { s with pending := false, calls := s.calls ++ [collect dom m] }
    else s
  | Event.cancel =>
    { s with pending := false, listeners := [], subscribed := false }

/-- Run a session over a trace of events, threading the document. -/
def runEvents (m : Manifest) : Document → Session → List Event → Document × Session
  | dom, s, [] => (dom, s)
  | dom, s, e :: es => runEvents m (domAfter dom e) (stepSession m dom s e) es

/-!
Model of the shared Change Source Multiplexer (src/domx.js lines
139-160 and 264-275): the module-level `sharedObserver` variable, the
`observerCallbacks` set, and the `new MutationObserver` creations
performed. Subscriber callbacks are identified by a number (closure
identity). The `created` counter counts how many times `new
MutationObserver(...)` has ever executed.
-/

/-- Module-level multiplexer state. -/
structure MuxState where
  created : Nat
  active : Bool
  subs : List Nat

/-- State at module load: `sharedObserver = null`, empty callback set. -/
def muxInit : MuxState := { created := 0, active := false, subs := [] }

/-- Embedding of `ensureObserver` (src/domx.js lines 142-160): if the
shared observer exists, return; otherwise construct it (incrementing the
creation count) and remember it. -/
def ensureObserver (st : MuxState) : MuxState :=
  if st.active then st
  else { st with created := st.created + 1, active := true }

/-- `Set.prototype.add`: append only when not already present. -/
def setAdd (l : List Nat) (x : Nat) : List Nat :=
  if l.contains x then l else l ++ [x]

/-- `Set.prototype.delete`: remove the element if present. -/
def setDelete (l : List Nat) (x : Nat) : List Nat :=
  l.filter fun y => y ≠ x

/-- Operations that touch the multiplexer: an `observe` call (lines
237-239: `ensureObserver` then `observerCallbacks.add(mutationHandler)`),
an `on` call (lines 264-269: `ensureObserver` then add), an unsubscribe
from either (delete), and a bare `ensureObserver`. -/
inductive MuxOp where
  | observeStart (id : Nat)
  | onStart (id : Nat)
  | unsub (id : Nat)
  | ensure

/-- Apply one multiplexer operation. -/
def applyOp (st : MuxState) : MuxOp → MuxState
  | MuxOp.observeStart id =>
    let st1 := ensureObserver st
    { st1 with subs := setAdd st1.subs id }
  | MuxOp.onStart id =>
    let st1 := ensureObserver st
    { st1 with subs := setAdd st1.subs id }
  | MuxOp.unsub id => { st with subs := setDelete st.subs id }
  | MuxOp.ensure => ensureObserver st

/-- Apply a sequence of multiplexer operations. -/
def applyOps (st : MuxState) : List MuxOp → MuxState
  | [] => st
  | op :: ops => applyOps (applyOp st op) ops

/-- Dispatch of one raw notification batch by the shared observer
(src/domx.js lines 145-150): the sequence of subscriber callbacks
invoked, in set iteration order. -/
def dispatchBatch (st : MuxState) : List Nat :=
  st.subs

/-!
Model of what the shared MutationObserver delivers, from its
configuration (src/domx.js lines 154-159) and the DOM standard's
record-queuing rule: a mutation of an enabled type is delivered when its
target is the observed node, or a descendant of it when `subtree` is
set. Nodes get an identity and an ancestor-id list for this purpose.
-/

/-- A node with identity, for the delivery model: its id, the ids of its
proper ancestors, and its nodeType. -/
structure DNode where
  id : Nat
  ancestorIds : List Nat := []
  nodeType : Nat := 1
deriving DecidableEq

/-- A raw mutation with an identified target. -/
structure DMutation where
  mtype : MutationType
  target : DNode
deriving DecidableEq

/-- A MutationObserver configuration: observed node and option flags. -/
structure MOConfig where
  targetId : Nat
  childList : Bool
  subtree : Bool
  attributes : Bool
  characterData : Bool

/-- Node id of `document.body` in the delivery model. -/
def bodyId : Nat := 0

/-- The configuration passed to `sharedObserver.observe` (src/domx.js
lines 154-159): document.body, childList true, subtree false,
attributes true, characterData true. -/
def sharedObserverConfig : MOConfig :=
  { targetId := bodyId, childList := true, subtree := false,
    attributes := true, characterData := true }

/-- Whether a configuration enables a mutation type. -/
def typeEnabled (c : MOConfig) : MutationType → Bool
  | MutationType.childList => c.childList
  | MutationType.attributes => c.attributes
  | MutationType.characterData => c.characterData

/-- Delivery rule of the DOM standard for one observer: the type is
enabled, and the target is the observed node itself, or one of its
descendants when `subtree` is set. -/
def delivers (c : MOConfig) (mu : DMutation) : Bool :=
  typeEnabled c mu.mtype &&
  (mu.target.id == c.targetId ||
   (c.subtree && mu.target.ancestorIds.contains c.targetId))

/-!
Two concurrent sessions sharing one document and the shared observer.
Distinct sessions hold distinct handler and listener closures, so each
session's registrations are its own entries in the shared sets; a shared
event reaches both sessions, while each cancel function touches only its
own session's registrations.
-/

/-- World of two concurrent sessions over one document. -/
structure World2 where
  dom : Document
  sA : Session
  sB : Session

/-- Events for the two-session world: a shared host event (delivered to
both sessions), or a call to one session's own cancel function. -/
inductive Event2 where
  | shared (e : Event)
  | cancelA
  | cancelB

/-- One step of the two-session world. -/
def step2 (mA mB : Manifest) (w : World2) : Event2 → World2
  | Event2.shared e =>
    { dom := domAfter w.dom e,
      sA := stepSession mA w.dom w.sA e,
      sB := stepSession mB w.dom w.sB e }
  | Event2.cancelA => { w with sA := stepSession mA w.dom w.sA Event.cancel }
  | Event2.cancelB => { w with sB := stepSession mB w.dom w.sB Event.cancel }

/-- Run the two-session world over a trace. -/
def run2 (mA mB : Manifest) : World2 → List Event2 → World2
  | w, [] => w
  | w, e :: es => run2 mA mB (step2 mA mB w e) es

/-! Helper lemmas about traces. -/

theorem runEvents_append (m : Manifest) (dom : Document) (s : Session) (u v : List Event) :
    runEvents m dom s (u ++ v)
      = runEvents m (runEvents m dom s u).1 (runEvents m dom s u).2 v := by
  induction u generalizing dom s with
  | nil => rfl
  | cons e es ih => simpa [runEvents] using ih (domAfter dom e) (stepSession m dom s e)

theorem windowStep_calls (m : Manifest) (dom : Document) (s : Session) (e : Event)
    (he : isWindowEvent e = true) :
    (stepSession m dom s e).calls = s.calls := by
  cases e with
  | setDom d => rfl
  | domEvent ty tgt =>
    simp only [stepSession, scheduleCallback]
    split <;> (try split) <;> rfl
  | mutationBatch ms =>
    simp only [stepSession, scheduleCallback]
    split <;> (try split) <;> rfl
  | frame => simp [isWindowEvent] at he
  | cancel => simp [isWindowEvent] at he

theorem runEvents_window_calls (m : Manifest) (u : List Event) :
    ∀ (dom : Document) (s : Session), u.all isWindowEvent = true →
      (runEvents m dom s u).2.calls = s.calls := by
  induction u with
  | nil => intro dom s _; rfl
  | cons e es ih =>
    intro dom s h
    rw [List.all_cons, Bool.and_eq_true] at h
    calc (runEvents m (domAfter dom e) (stepSession m dom s e) es).2.calls
        = (stepSession m dom s e).calls := ih _ _ h.2
      _ = s.calls := windowStep_calls m dom s e h.1

theorem stepSession_inert (m : Manifest) (dom : Document)
    (c : List (Except String StateObj)) (e : Event) :
    stepSession m dom ⟨false, [], false, c⟩ e = ⟨false, [], false, c⟩ := by
  cases e <;> simp [stepSession, scheduleCallback]

theorem runEvents_inert (m : Manifest) (u : List Event) :
    ∀ (dom : Document) (c : List (Except String StateObj)),
      (runEvents m dom ⟨false, [], false, c⟩ u).2 = ⟨false, [], false, c⟩ := by
  induction u with
  | nil => intro dom c; rfl
  | cons e es ih =>
    intro dom c
    show (runEvents m (domAfter dom e) (stepSession m dom ⟨false, [], false, c⟩ e) es).2 = _
    rw [stepSession_inert]
    exact ih _ _

theorem run2_append (mA mB : Manifest) (w : World2) (t u : List Event2) :
    run2 mA mB w (t ++ u) = run2 mA mB (run2 mA mB w t) u := by
  induction t generalizing w with
  | nil => rfl
  | cons e es ih => simpa [run2] using ih (step2 mA mB w e)

theorem run2_domB_congr (mA mB : Manifest) (u : List Event2) :
    ∀ (w w' : World2), w.dom = w'.dom → w.sB = w'.sB →
      (run2 mA mB w u).dom = (run2 mA mB w' u).dom ∧
      (run2 mA mB w u).sB = (run2 mA mB w' u).sB := by
  induction u with
  | nil => intro w w' h1 h2; exact ⟨h1, h2⟩
  | cons e es ih =>
    intro w w' h1 h2
    apply ih
    · cases e <;> simp [step2, h1, h2]
    · cases e <;> simp [step2, h1, h2]

/-! Claim C1. -/

/-- A manifest whose single entry has a custom read function and no
watch override: by the spec (and the source comment on getWatchEvent,
line 170: requires explicit watch) it should receive no trigger. -/
def c1Manifest : Manifest :=
  [("pageInfo", { selector := "body", read := some (ReadSpec.custom fun _ => Value.vNull) })]

/-- The document.body node as a mutation target: an element matching the
selector body. -/
def c1BodyNode : Node := { nodeType := 1, selfMatches := ["body"] }

/-- The raw batch the shared observer delivers after a child is appended
to document.body: one childList record whose target is body. -/
def c1Batch : List Mutation := [{ mtype := MutationType.childList, target := c1BodyNode }]

/-- C1: the claim says a session over a manifest in which every entry is
custom-read without watch never invokes the callback. The code violates
it: such an entry installs no delegated listener, yet its selector is
still pushed into the mutation handler's watched-selector list (null
from getWatchEvent is overloaded), so a delivered childList mutation on
document.body matching the selector schedules a flush and the callback
fires at the next frame. -/
theorem customRead_mutation_flush_codebug :
    initListeners c1Manifest = [] ∧
    watchedSelectors c1Manifest = ["body"] ∧
    mutationHandlerSchedules c1Manifest c1Batch = true ∧
    (runEvents c1Manifest [] (initSession c1Manifest)
      [Event.mutationBatch c1Batch, Event.frame]).2.calls.length = 1 :=
  ⟨rfl, rfl, rfl, rfl⟩

/-! Claim C2. -/

/-- A manifest with a single text-read entry, watched via mutations. -/
def c2Manifest : Manifest :=
  [("msg", { selector := "#msg", read := some (ReadSpec.str "text") })]

/-- A text node (nodeType 3) living inside the element matching #msg. -/
def c2TextNode : Node := { nodeType := 3, ancestorMatches := ["#msg"] }

/-- The batch produced by a character-data change on that text node. -/
def c2Batch : List Mutation :=
  [{ mtype := MutationType.characterData, target := c2TextNode }]

/-- C2 counterexample: a character-data change whose target is a text
node inside a text-read element does NOT schedule a flush, although the
node has an ancestor matching the watched selector: the handler skips
every target whose nodeType is not 1 (src/domx.js line 226). -/
theorem mutationHandler_textNode_counterexample :
    watchedSelectors c2Manifest = ["#msg"] ∧
    c2TextNode.ancestorMatches.contains "#msg" = true ∧
    mutationHandlerSchedules c2Manifest c2Batch = false :=
  ⟨rfl, rfl, rfl⟩

/-- Propositional reading of the mutation handler's decision, used to
state the amended C2. -/
theorem mutationHandlerSchedules_iff (m : Manifest) (ms : List Mutation) :
    mutationHandlerSchedules m ms = true ↔
      ∃ mu ∈ ms, mu.target.nodeType = 1 ∧
        ∃ sel ∈ watchedSelectors m,
          sel ∈ mu.target.selfMatches ∨ sel ∈ mu.target.ancestorMatches := by
  simp [mutationHandlerSchedules, nodeTriggers, List.any_eq_true, Bool.and_eq_true,
    Bool.or_eq_true, List.contains, beq_iff_eq]

/-- C2 amended: on a delivered raw batch, a subscribed session with no
pending flush schedules one precisely when some mutated ELEMENT node
(nodeType 1) matches one of the session's tree-mutation-watched
selectors directly or has a proper ancestor matching one; mutations
whose target is not an element — in particular character-data changes
targeting text nodes — never schedule a flush. -/
theorem mutationHandler_schedules_iff (m : Manifest) (dom : Document) (s : Session)
    (ms : List Mutation) (hsub : s.subscribed = true) (hpend : s.pending = false) :
    (stepSession m dom s (Event.mutationBatch ms)).pending = true ↔
      ∃ mu ∈ ms, mu.target.nodeType = 1 ∧
        ∃ sel ∈ watchedSelectors m,
          sel ∈ mu.target.selfMatches ∨ sel ∈ mu.target.ancestorMatches := by
  rw [← mutationHandlerSchedules_iff]
  simp only [stepSession, hsub, Bool.true_and]
  by_cases h : mutationHandlerSchedules m ms
  · rw [if_pos h]
    simp [scheduleCallback, hpend, h]
  · rw [if_neg h]
    simp only [hpend, Bool.false_eq_true, false_iff]
    exact h

/-- A manifest with one attribute-read entry, watched via mutations. -/
def c2WitManifest : Manifest :=
  [("sortDir", { selector := "[data-sort-dir]", read := some (ReadSpec.str "attr:data-sort-dir") })]

/-- An element node matching the watched selector. -/
def c2WitNode : Node := { nodeType := 1, selfMatches := ["[data-sort-dir]"] }

/-- The batch from an attribute change on that element. -/
def c2WitBatch : List Mutation :=
  [{ mtype := MutationType.attributes, target := c2WitNode }]

/-- Witness for the amended C2 at a concrete session and batch. -/
theorem mutationHandler_schedules_iff_witness :
    (stepSession c2WitManifest [] (initSession c2WitManifest)
      (Event.mutationBatch c2WitBatch)).pending = true :=
  (mutationHandler_schedules_iff c2WitManifest [] (initSession c2WitManifest)
      c2WitBatch rfl rfl).mpr
    ⟨{ mtype := MutationType.attributes, target := c2WitNode }, List.Mem.head _, rfl,
      "[data-sort-dir]", by decide, Or.inl (by decide)⟩

/-! Claim C3. -/

/-- C3: within one coalescing window — any trace of trigger and DOM
events containing no frame boundary and no cancel — in which at least
one trigger actually fired (the session ends the window with a pending
flush), the frame boundary delivers exactly one callback invocation,
and its argument is the single full snapshot computed by collect over
the document as it stands at flush time; no per-trigger invocations and
no deltas occur. -/
theorem coalescing_single_flush (m : Manifest) (dom : Document) (s : Session) (u : List Event)
    (hu : u.all isWindowEvent = true)
    (hp : (runEvents m dom s u).2.pending = true) :
    (runEvents m dom s (u ++ [Event.frame])).2.calls
      = s.calls ++ [collect (runEvents m dom s u).1 m] := by
  rw [runEvents_append]
  show (runEvents m (domAfter (runEvents m dom s u).1 Event.frame)
      (stepSession m (runEvents m dom s u).1 (runEvents m dom s u).2 Event.frame) []).2.calls = _
  simp only [stepSession, hp, if_true, domAfter, runEvents]
  rw [runEvents_window_calls m u dom s hu]

/-- Manifest of the C3 witness: two value-read entries. -/
def c3Manifest : Manifest :=
  [("a", { selector := "#a", read := some (ReadSpec.str "value") }),
   ("b", { selector := "#b", read := some (ReadSpec.str "value") })]

/-- The two input elements, already holding their post-firing values. -/
def c3Doc : Document :=
  [{ value := "10", matchedBy := ["#a"] }, { value := "20", matchedBy := ["#b"] }]

/-- Event target matching the first entry. -/
def c3NodeA : Node := { selfMatches := ["#a"] }

/-- Event target matching the second entry. -/
def c3NodeB : Node := { selfMatches := ["#b"] }

/-- One coalescing window: both fields change, then both input events
fire, with no frame boundary in between. -/
def c3Window : List Event :=
  [Event.setDom c3Doc, Event.domEvent "input" c3NodeA, Event.domEvent "input" c3NodeB]

/-- Witness for C3: two discrete firings inside one window produce, at
the frame boundary, exactly one callback invocation carrying the full
two-entry snapshot. -/
theorem coalescing_single_flush_witness :
    c3Window.all isWindowEvent = true ∧
    (runEvents c3Manifest [] (initSession c3Manifest) c3Window).2.pending = true ∧
    (runEvents c3Manifest [] (initSession c3Manifest) (c3Window ++ [Event.frame])).2.calls
      = [] ++ [collect (runEvents c3Manifest [] (initSession c3Manifest) c3Window).1 c3Manifest] ∧
    collect (runEvents c3Manifest [] (initSession c3Manifest) c3Window).1 c3Manifest
      = Except.ok [("a", Value.vStr "10"), ("b", Value.vStr "20")] :=
  ⟨rfl, rfl,
    coalescing_single_flush c3Manifest [] (initSession c3Manifest) c3Window rfl rfl, rfl⟩

/-! Claim C4. -/

/-- C4: once the cancel function returned by observe has run, the
pending scheduled flush (if any) is revoked, every delegated listener
and the session's multiplexer subscription are removed, and no
subsequent trace of events — mutations in flight, frames, anything —
ever adds a callback invocation for that session. -/
theorem cancel_stops_callbacks (m : Manifest) (dom : Document) (s : Session) (u : List Event) :
    (stepSession m dom s Event.cancel).pending = false ∧
    (stepSession m dom s Event.cancel).listeners = [] ∧
    (stepSession m dom s Event.cancel).subscribed = false ∧
    (runEvents m dom s (Event.cancel :: u)).2.calls = s.calls := by
  refine ⟨rfl, rfl, rfl, ?_⟩
  show (runEvents m (domAfter dom Event.cancel) ⟨false, [], false, s.calls⟩ u).2.calls = s.calls
  rw [runEvents_inert]

/-! Claim C5. -/

/-- C5: calling the cancel function twice has exactly the same effect on
the session (and on everything that follows in the trace) as calling it
once; it never faults, and it is safe with no pending flush, since it
only resets the pending handle and removes registrations. -/
theorem cancel_idempotent (m : Manifest) (dom : Document) (s : Session) (u : List Event) :
    runEvents m dom s (Event.cancel :: Event.cancel :: u)
      = runEvents m dom s (Event.cancel :: u) := rfl

/-! Claim C6. -/

/-- Invariant of the multiplexer state: the creation count reflects
whether the shared observer exists, and the subscriber set is
duplicate-free. -/
def muxInv (st : MuxState) : Prop :=
  (st.created = if st.active then 1 else 0) ∧ st.subs.Nodup

theorem ensureObserver_pres (st : MuxState) (h : muxInv st) : muxInv (ensureObserver st) := by
  obtain ⟨h1, h2⟩ := h
  by_cases hact : st.active = true
  · rw [ensureObserver, if_pos hact]; exact ⟨h1, h2⟩
  · rw [Bool.not_eq_true] at hact
    rw [ensureObserver, hact]
    simp only [Bool.false_eq_true, if_false]
    rw [hact] at h1
    simp only [Bool.false_eq_true, if_false] at h1
    exact ⟨by simp [h1], h2⟩

theorem setAdd_nodup (l : List Nat) (x : Nat) (h : l.Nodup) : (setAdd l x).Nodup := by
  rw [setAdd]
  split
  · exact h
  · rename_i hx
    rw [List.nodup_append]
    refine ⟨h, List.nodup_singleton x, ?_⟩
    intro a ha hax
    rw [List.mem_singleton] at hax
    subst hax
    exact hx (List.elem_eq_true_of_mem ha)

theorem applyOp_pres (st : MuxState) (op : MuxOp) (h : muxInv st) : muxInv (applyOp st op) := by
  cases op with
  | observeStart id =>
    obtain ⟨h1, h2⟩ := ensureObserver_pres st h
    exact ⟨h1, setAdd_nodup _ _ h2⟩
  | onStart id =>
    obtain ⟨h1, h2⟩ := ensureObserver_pres st h
    exact ⟨h1, setAdd_nodup _ _ h2⟩
  | unsub id => exact ⟨h.1, List.Nodup.filter _ h.2⟩
  | ensure => exact ensureObserver_pres st h

theorem applyOps_pres (ops : List MuxOp) :
    ∀ st : MuxState, muxInv st → muxInv (applyOps st ops) := by
  induction ops with
  | nil => intro st h; exact h
  | cons op rest ih => intro st h; exact ih _ (applyOp_pres st op h)

theorem ensureObserver_idem (st : MuxState) :
    ensureObserver (ensureObserver st) = ensureObserver st := by
  by_cases h : st.active = true
  · simp [ensureObserver, h]
  · rw [Bool.not_eq_true] at h
    simp [ensureObserver, h]

/-- C6: starting from module load, any interleaving of observe starts,
on subscriptions, unsubscribes and ensureObserver calls creates at most
one underlying MutationObserver; ensureObserver after creation is a
no-op (idempotent); and when a raw batch is dispatched, every
registered subscriber callback is invoked exactly once. -/
theorem observer_singleton (ops : List MuxOp) :
    (applyOps muxInit ops).created ≤ 1 ∧
    ensureObserver (ensureObserver (applyOps muxInit ops))
      = ensureObserver (applyOps muxInit ops) ∧
    ∀ id ∈ dispatchBatch (applyOps muxInit ops),
      (dispatchBatch (applyOps muxInit ops)).count id = 1 := by
  have hinv := applyOps_pres ops muxInit ⟨rfl, List.nodup_nil⟩
  refine ⟨?_, ensureObserver_idem _, ?_⟩
  · rw [hinv.1]; split <;> simp
  · intro id hid
    exact List.count_eq_one_of_mem hinv.2 hid

/-- Witness for C6: after one observe session and one on subscription,
the subscriber registered by observe is dispatched exactly once. -/
theorem observer_singleton_witness :
    7 ∈ dispatchBatch (applyOps muxInit [MuxOp.observeStart 7, MuxOp.onStart 3]) ∧
    (dispatchBatch (applyOps muxInit [MuxOp.observeStart 7, MuxOp.onStart 3])).count 7 = 1 :=
  ⟨by decide, (observer_singleton [MuxOp.observeStart 7, MuxOp.onStart 3]).2.2 7 (by decide)⟩

/-! Claim C7. -/

/-- C7: collect is a pure, synchronous function of the document state,
and for every manifest entry with a (truthy) selector and read
directive, a successful snapshot maps the entry's label to null when
the selector matches zero elements, and to the ordered array of
per-element extracted values when it matches two or more. -/
theorem collect_zero_null_many_array
    (doc : Document) (m : Manifest) (st : StateObj) (label : String) (config : Entry)
    (r : ReadSpec) (ex : Element → Value)
    (hmem : (label, config) ∈ m)
    (hnodup : (m.map Prod.fst).Nodup)
    (hsel : ¬ config.selector = "")
    (hread : config.read = some r)
    (htruthy : readTruthy r = true)
    (hex : parseRead r = Except.ok ex)
    (hok : collect doc m = Except.ok st) :
    (querySelectorAll doc config.selector = [] → st.lookup label = some Value.vNull) ∧
    (∀ e1 e2 es, querySelectorAll doc config.selector = e1 :: e2 :: es →
      st.lookup label = some (Value.vArr ((e1 :: e2 :: es).map ex))) := by
  revert hok
  revert st
  revert hnodup
  revert hmem
  induction m with
  | nil => intro hmem _ st _; cases hmem
  | cons hd tl ih =>
    intro hmem hnodup st hok
    obtain ⟨l0, c0⟩ := hd
    rw [List.map_cons, List.nodup_cons] at hnodup
    rcases List.mem_cons.mp hmem with heq | hmem2
    · injection heq with e1 e2
      subst e1
      subst e2
      simp only [collect, hread, hsel, htruthy, hex, if_false, Bool.true_eq_false,
        if_neg, ite_false] at hok
      cases hc : collect doc tl with
      | error e => rw [hc] at hok; simp at hok
      | ok st2 =>
        rw [hc] at hok
        injection hok with h
        subst h
        constructor
        · intro hq
          simp [List.lookup, hq, entryValue]
        · intro e1 e2 es hq
          simp [List.lookup, hq, entryValue]
    · have hlabel : label ∈ tl.map Prod.fst := List.mem_map_of_mem Prod.fst hmem2
      have hne : (label == l0) = false := by
        rw [beq_eq_false_iff_ne]
        intro h
        exact hnodup.1 (by rw [← h]; exact hlabel)
      simp only [collect] at hok
      cases hr0 : c0.read with
      | none =>
        simp only [hr0] at hok
        exact ih hmem2 hnodup.2 st hok
      | some r0 =>
        simp only [hr0] at hok
        by_cases hs0 : c0.selector = ""
        · rw [if_pos hs0] at hok
          exact ih hmem2 hnodup.2 st hok
        · rw [if_neg hs0] at hok
          by_cases ht0 : readTruthy r0 = false
          · rw [if_pos ht0] at hok
            exact ih hmem2 hnodup.2 st hok
          · rw [if_neg ht0] at hok
            cases hp0 : parseRead r0 with
            | error e0 => rw [hp0] at hok; simp at hok
            | ok ex0 =>
              rw [hp0] at hok
              cases hc : collect doc tl with
              | error e => rw [hc] at hok; simp at hok
              | ok st2 =>
                rw [hc] at hok
                injection hok with h
                subst h
                have hih := ih hmem2 hnodup.2 st2 hc
                constructor
                · intro hq
                  have hv := hih.1 hq
                  simp [List.lookup, hne, hv]
                · intro e1 e2 es hq
                  have hv := hih.2 e1 e2 es hq
                  simp [List.lookup, hne, hv]

/-- First element of the C7 witness document. -/
def c7El1 : Element := { textContent := "A", matchedBy := [".tag"] }

/-- Second element of the C7 witness document. -/
def c7El2 : Element := { textContent := "B", matchedBy := [".tag"] }

/-- The C7 witness document: two elements matching .tag, none matching
the selector of the first entry. -/
def c7Doc : Document := [c7El1, c7El2]

/-- The C7 witness manifest: a zero-match entry and a two-match entry. -/
def c7Manifest : Manifest :=
  [("missing", { selector := "#nope", read := some (ReadSpec.str "text") }),
   ("tags", { selector := ".tag", read := some (ReadSpec.str "text") })]

/-- The snapshot collect computes for the C7 witness. -/
def c7St : StateObj :=
  [("missing", Value.vNull), ("tags", Value.vArr [Value.vStr "A", Value.vStr "B"])]

/-- Witness for C7: on the concrete document, the zero-match label reads
null and the two-match label reads the ordered array of text values. -/
theorem collect_zero_null_many_array_witness :
    collect c7Doc c7Manifest = Except.ok c7St ∧
    c7St.lookup "missing" = some Value.vNull ∧
    c7St.lookup "tags" = some (Value.vArr [Value.vStr "A", Value.vStr "B"]) := by
  refine ⟨rfl, ?_, ?_⟩
  · exact (collect_zero_null_many_array c7Doc c7Manifest c7St "missing"
      { selector := "#nope", read := some (ReadSpec.str "text") }
      (ReadSpec.str "text") (fun el => Value.vStr el.textContent)
      (List.Mem.head _) (by decide) (by decide) rfl rfl rfl rfl).1 rfl
  · exact (collect_zero_null_many_array c7Doc c7Manifest c7St "tags"
      { selector := ".tag", read := some (ReadSpec.str "text") }
      (ReadSpec.str "text") (fun el => Value.vStr el.textContent)
      (List.Mem.tail _ (List.Mem.head _)) (by decide) (by decide) rfl rfl rfl rfl).2
      c7El1 c7El2 [] rfl

/-! Claim C8. -/

/-- C8 counterexample: the empty string is a read directive that is a
string and is not among value / checked / text / attr:* / data:*, yet
collect does not throw on it: the falsiness guard skips the entry and
the snapshot succeeds. -/
theorem collect_emptyRead_counterexample :
    collect ([] : Document)
      [("x", { selector := "#a", read := some (ReadSpec.str "") })] = Except.ok [] ∧
    ¬("" = "value" ∨ "" = "checked" ∨ "" = "text" ∨
      "".startsWith "attr:" = true ∨ "".startsWith "data:" = true) :=
  ⟨rfl, by decide⟩

/-- C8 amended: for every manifest entry with a truthy selector whose
read directive is a NONEMPTY string not among value, checked, text,
attr:*, or data:*, collect throws (returns an error) immediately at
snapshot-read time, propagating synchronously to the caller. -/
theorem collect_unknownRead_throws
    (doc : Document) (m : Manifest) (label : String) (config : Entry) (s : String)
    (hmem : (label, config) ∈ m)
    (hsel : ¬ config.selector = "")
    (hread : config.read = some (ReadSpec.str s))
    (hne : ¬ s = "")
    (h1 : ¬ s = "value") (h2 : ¬ s = "checked") (h3 : ¬ s = "text")
    (h4 : s.startsWith "attr:" = false) (h5 : s.startsWith "data:" = false) :
    ∃ err, collect doc m = Except.error err := by
  have hparse : parseRead (ReadSpec.str s)
      = Except.error ("Unknown read shortcut: " ++ s) := by
    simp [parseRead, h1, h2, h3, h4, h5]
  revert hmem
  induction m with
  | nil => intro hmem; cases hmem
  | cons hd tl ih =>
    intro hmem
    obtain ⟨l0, c0⟩ := hd
    rcases List.mem_cons.mp hmem with heq | hmem2
    · injection heq with e1 e2
      subst e1
      subst e2
      exact ⟨"Unknown read shortcut: " ++ s,
        by simp [collect, hread, hsel, readTruthy, hne, hparse]⟩
    · obtain ⟨err, herr⟩ := ih hmem2
      cases hr0 : c0.read with
      | none => exact ⟨err, by simp [collect, hr0, herr]⟩
      | some r0 =>
        by_cases hs0 : c0.selector = ""
        · exact ⟨err, by simp [collect, hr0, hs0, herr]⟩
        · by_cases ht0 : readTruthy r0 = false
          · exact ⟨err, by simp [collect, hr0, hs0, ht0, herr]⟩
          · cases hp0 : parseRead r0 with
            | error e0 => exact ⟨e0, by simp [collect, hr0, hs0, ht0, hp0]⟩
            | ok ex0 => exact ⟨err, by simp [collect, hr0, hs0, ht0, hp0, herr]⟩

/-- Witness for the amended C8: the unrecognized nonempty shortcut html
makes collect throw. -/
theorem collect_unknownRead_throws_witness :
    ∃ err, collect ([] : Document)
      [("x", { selector := "#a", read := some (ReadSpec.str "html") })]
      = Except.error err :=
  collect_unknownRead_throws []
    [("x", { selector := "#a", read := some (ReadSpec.str "html") })]
    "x" { selector := "#a", read := some (ReadSpec.str "html") } "html"
    (List.Mem.head _) (by decide) rfl (by decide) (by decide) (by decide) (by decide)
    rfl rfl

/-! Claim C9. -/

/-- C9: with the configuration passed to the shared observer
(document.body, childList true, subtree false, attributes true,
characterData true), a mutation is delivered precisely when its target
is document.body itself — attribute and character-data changes on body
plus child-list changes among its direct children — and a mutation
targeting any deeper descendant is never delivered. -/
theorem sharedObserver_body_only (mu : DMutation) :
    delivers sharedObserverConfig mu = true ↔ mu.target.id = bodyId := by
  cases mu with
  | mk t target =>
    cases t <;> simp [delivers, sharedObserverConfig, typeEnabled, bodyId]

/-! Claim C10. -/

/-- C10: cancelling the first of two concurrent sessions is invisible to
the second: the document evolution and the entire second-session state
(listeners, subscription, pending flush, callback invocations) over any
continuation are identical with or without the first session's cancel
call in the trace. -/
theorem cancel_independent_sessions (mA mB : Manifest) (w : World2) (t u : List Event2) :
    (run2 mA mB w (t ++ Event2.cancelA :: u)).dom = (run2 mA mB w (t ++ u)).dom ∧
    (run2 mA mB w (t ++ Event2.cancelA :: u)).sB = (run2 mA mB w (t ++ u)).sB := by
  rw [run2_append, run2_append]
  show (run2 mA mB (step2 mA mB (run2 mA mB w t) Event2.cancelA) u).dom = _ ∧ _
  exact run2_domB_congr mA mB u _ _ rfl rfl

end Domx
